import Mathlib

/-!
Verification development for the FakerBeat audio mastering engine.

The source is a TypeScript application built around a Web Audio DSP graph.
The pure algorithms (WAV serialization, track statistics, production score,
distortion curve tabulation, BPM estimation, key mapping, metering
arithmetic, settings plumbing) are embedded below.  Sample values are
modelled as exact rationals where the code is purely arithmetic (so
everything evaluates by `decide`), and as real numbers where the code calls
transcendental library functions (`Math.log`, `Math.log10`, `Math.atan`,
`Math.pow`).

Browser primitives (`OfflineAudioContext` rendering through a
`BiquadFilterNode`) are external collaborators: functions that consume their
output take the rendered sample array as an argument.
-/

attribute [local semireducible] Rat.mul Rat.inv Rat.add Rat.sub Rat.ofScientific

/-! ### Rational-valued audio buffers and `bufferToWave` (audioUtils.ts 4-53) -/

/-- Model of a decoded audio buffer with exact rational sample values.
`channel c i` is sample `i` of channel `c`; `duration = length / sampleRate`. -/
structure QAudioBuffer where
  numberOfChannels : ℕ
  sampleRate : ℕ
  length : ℕ
  channel : ℕ → ℕ → ℚ

/-- Little-endian byte pair written by `DataView.setUint16(pos, v, true)`. -/
def uint16Bytes (v : ℕ) : List ℕ := [v % 256, v / 256 % 256]

/-- Little-endian byte quadruple written by `DataView.setUint32(pos, v, true)`. -/
def uint32Bytes (v : ℕ) : List ℕ :=
  [v % 256, v / 256 % 256, v / 65536 % 256, v / 16777216 % 256]

/-- Little-endian byte pair written by `DataView.setInt16(pos, v, true)`:
the value is reduced modulo 2^16 and stored little-endian. -/
def int16Bytes (v : ℤ) : List ℕ :=
  uint16Bytes (v % 65536).toNat

/-- Overwrite the bytes of `bytes` starting at position `p` with `new`. -/
def writeBytesAt : List ℕ → ℕ → List ℕ → List ℕ
  | bytes, _, [] => bytes
  | bytes, p, x :: xs => writeBytesAt (bytes.set p x) (p + 1) xs

/-- `bufferToWave`'s per-sample encoding:
`sample = Math.max(-1, Math.min(1, s)); sample = (0.5 + sample < 0 ? sample * 32768 : sample * 32767) | 0`.
`| 0` truncates toward zero (the scaled value always fits in 32 bits). -/
def encodeSample (q : ℚ) : ℤ :=
  let s := max (-1) (min 1 q)
  let scaled : ℚ := if 1 / 2 + s < 0 then s * 32768 else s * 32767
  if 0 ≤ scaled then ⌊scaled⌋ else ⌈scaled⌉

/-- `length = len * numOfChan * 2 + 44` in `bufferToWave`. -/
def wavTotalLength (b : QAudioBuffer) (len : ℕ) : ℕ :=
  len * b.numberOfChannels * 2 + 44

/-- The 44 header bytes produced by the sequence of `setUint32` / `setUint16`
calls in `bufferToWave` (positions 0..43, written consecutively from 0). -/
def wavHeaderBytes (b : QAudioBuffer) (len : ℕ) : List ℕ :=
  uint32Bytes 0x46464952 ++
  uint32Bytes (wavTotalLength b len - 8) ++
  uint32Bytes 0x45564157 ++
  uint32Bytes 0x20746d66 ++
  uint32Bytes 16 ++
  uint16Bytes 1 ++
  uint16Bytes b.numberOfChannels ++
  uint32Bytes b.sampleRate ++
  uint32Bytes (b.sampleRate * 2 * b.numberOfChannels) ++
  uint16Bytes (b.numberOfChannels * 2) ++
  uint16Bytes 16 ++
  uint32Bytes 0x61746164 ++
  uint32Bytes (wavTotalLength b len - 44)

/-- `bufferToWave (abuffer, len)`: the byte contents of the returned Blob.

After the header, `pos = 44`; the sample loop is `while (pos < len)`, so the
frame index `pos` ranges over `44, 45, ..., len - 1` (the loop variable is
shared with the header writes and is not reset).  For each frame the
channels are interleaved, each encoded sample written at byte position
`44 + offset` with `offset` advancing by 2; the remainder of the
zero-initialized `ArrayBuffer` is left untouched. -/
def bufferToWave (b : QAudioBuffer) (len : ℕ) : List ℕ :=
  let init := wavHeaderBytes b len ++ List.replicate (len * b.numberOfChannels * 2) 0
  ((List.range' 44 (len - 44) 1).foldl (fun st pos =>
      (List.range b.numberOfChannels).foldl (fun st2 i =>
        (writeBytesAt st2.1 (44 + st2.2) (int16Bytes (encodeSample (b.channel i pos))),
         st2.2 + 2)) st)
    (init, 0)).1

/-- Concrete buffer exhibiting the frame-offset slip in `bufferToWave`:
mono, 45 frames, frames 0..43 hold sample 1 and frame 44 holds sample -1. -/
def c1Buffer : QAudioBuffer :=
  { numberOfChannels := 1
    sampleRate := 8000
    length := 45
    channel := fun _ i => if i < 44 then 1 else -1 }

/-! ### `detectBPM` (audioUtils.ts 152-224)

The slice bounds and copy are computed from the input buffer; the slice is
then rendered through a 150 Hz lowpass `BiquadFilterNode` (a browser
primitive), and the peak scan runs over the rendered data.  The rendered
data is therefore a parameter of the model. -/

/-- `startSample = Math.floor((buffer.duration / 2) * buffer.sampleRate)`
with `duration = length / sampleRate`. -/
def bpmSliceStart (length sr : ℕ) : ℕ :=
  ⌊((length : ℚ) / sr / 2) * sr⌋₊

/-- `endSample = Math.min(buffer.length, startSample + 30 * sampleRate)`. -/
def bpmSliceEnd (length sr : ℕ) : ℕ :=
  min length (bpmSliceStart length sr + 30 * sr)

/-- `sliceLength = endSample - startSample` (never negative here since
`startSample ≤ length`). -/
def bpmSliceLength (length sr : ℕ) : ℕ :=
  bpmSliceEnd length sr - bpmSliceStart length sr

/-- The copy loop `sliceData[i] = originalData[startSample + i]` for
`i < sliceLength`. -/
def bpmSliceData (length sr : ℕ) (orig : ℕ → ℚ) : List ℚ :=
  (List.range (bpmSliceLength length sr)).map fun i =>
    orig (bpmSliceStart length sr + i)

/-- Modelled from the spec: "take a 30-second slice centered at the buffer
midpoint", clamped to the buffer bounds — the slice would start at
`midpoint - 15 s` (in samples, `length/2 - 15·sampleRate`, floored at 0). -/
def specBpmSliceStart (length sr : ℕ) : ℕ :=
  (⌊(length : ℚ) / 2⌋ - 15 * sr).toNat

/-- Modelled from the spec: the centered slice would end at
`midpoint + 15 s`, clamped to the buffer length. -/
def specBpmSliceEnd (length sr : ℕ) : ℕ :=
  min length (⌊(length : ℚ) / 2⌋ + 15 * sr).toNat

/-- The debounce test `peaks.length === 0 || i - peaks[peaks.length-1] > 2000`. -/
def peakGapOk (peaks : List ℕ) (i : ℕ) : Bool :=
  match peaks.getLast? with
  | none => true
  | some l => decide (l + 2000 < i)

/-- The peak scan `for (i = 0; i < data.length; i += 1000)` pushing `i`
whenever `data[i] > 0.4` and the debounce test passes.  The loop visits
`⌈len / 1000⌉` indices `0, 1000, 2000, ...`. -/
def detectPeaks (data : ℕ → ℚ) (len : ℕ) : List ℕ :=
  (List.range' 0 ((len + 999) / 1000) 1000).foldl (fun peaks i =>
    if 0.4 < data i ∧ peakGapOk peaks i = true then peaks ++ [i] else peaks) []

/-- `intervals.push(peaks[i] - peaks[i-1])` for `i = 1 .. peaks.length-1`. -/
def intervalsOf : List ℕ → List ℤ
  | a :: b :: rest => ((b : ℤ) - (a : ℤ)) :: intervalsOf (b :: rest)
  | _ => []

/-- `const q = Math.round(int / 100) * 100` (JS `Math.round` is `⌊x + 1/2⌋`,
which is Mathlib's `round`). -/
def quantizeInterval (n : ℤ) : ℤ :=
  round ((n : ℚ) / 100) * 100

/-- The histogram / modal-bucket selection: `counts[q]` counts each quantized
interval; `Object.entries` iterates the numeric keys in ascending order and
the first key with a strictly larger count wins (`maxCount = 0`,
`bestInterval = 0` initially). -/
def bestIntervalOf (ints : List ℤ) : ℤ :=
  let qs := ints.map quantizeInterval
  ((qs.dedup.insertionSort (· ≤ ·)).foldl
    (fun acc k => if acc.1 < qs.count k then (qs.count k, k) else acc)
    ((0 : ℕ), (0 : ℤ))).2

/-- `while (bpm < 110) bpm *= 2` (the loop only runs for positive `bpm`;
a non-positive value would never terminate in the source, and here the
guard `0 < b` leaves it unchanged). -/
def foldUp (b : ℚ) : ℚ :=
  if h : 0 < b ∧ b < 110 then foldUp (2 * b) else b
termination_by (⌈110 / b⌉).toNat
decreasing_by
  obtain ⟨hb, hlt⟩ := h
  have hx : (1 : ℚ) < 110 / b := (one_lt_div hb).mpr hlt
  have h2 : (2 : ℤ) ≤ ⌈(110 : ℚ) / b⌉ := by
    have h1 : (1 : ℤ) < ⌈(110 : ℚ) / b⌉ := Int.lt_ceil.mpr (by exact_mod_cast hx)
    omega
  have hble : (110 : ℚ) / b ≤ ⌈(110 : ℚ) / b⌉ := Int.le_ceil _
  have hcb : (110 : ℚ) ≤ (⌈(110 : ℚ) / b⌉ : ℚ) * b := (div_le_iff₀ hb).mp hble
  have h2b : 2 * b ≤ (⌈(110 : ℚ) / b⌉ : ℚ) * b := by
    apply mul_le_mul_of_nonneg_right _ hb.le
    exact_mod_cast h2
  have hle : ⌈(110 : ℚ) / (2 * b)⌉ ≤ ⌈(110 : ℚ) / b⌉ - 1 := by
    rw [Int.ceil_le]
    push_cast
    rw [div_le_iff₀ (by positivity)]
    nlinarith [hcb, h2b]
  omega

/-- `while (bpm > 155) bpm /= 2`. -/
def foldDown (b : ℚ) : ℚ :=
  if h : 155 < b then foldDown (b / 2) else b
termination_by (⌈b⌉).toNat
decreasing_by
  have h2 : (156 : ℤ) ≤ ⌈b⌉ := by
    have h1 : (155 : ℤ) < ⌈b⌉ := Int.lt_ceil.mpr (by exact_mod_cast h)
    omega
  have hle : ⌈b / 2⌉ ≤ ⌈b⌉ - 1 := by
    rw [Int.ceil_le]
    push_cast
    rw [div_le_iff₀ (by norm_num)]
    nlinarith [Int.le_ceil b]
  omega

/-- `detectBPM` from the rendered (lowpass-filtered) slice data of length
`len`: peak scan, interval histogram, modal bucket, then
`bpm = (60 * sampleRate) / bestInterval` folded into range and rounded;
`128` when the modal bucket is `0`. -/
def detectBPMRendered (data : ℕ → ℚ) (len sr : ℕ) : ℤ :=
  let peaks := detectPeaks data len
  let bestInterval := bestIntervalOf (intervalsOf peaks)
  if bestInterval = 0 then 128
  else round (foldDown (foldUp ((60 * (sr : ℚ)) / (bestInterval : ℚ))))

/-- `detectBPM` on a buffer with the given `length` and `sampleRate`, where
`rendered` is the output of the external 150 Hz lowpass render of the slice
(the `OfflineAudioContext` is created with exactly `sliceLength` frames).
Returns 128 when the slice is empty (`sliceLength <= 0`). -/
def detectBPM (length sr : ℕ) (rendered : ℕ → ℚ) : ℤ :=
  if bpmSliceLength length sr = 0 then 128
  else detectBPMRendered rendered (bpmSliceLength length sr) sr

/-- Rendered data for the C4 counterexample: unit impulses every 3000
samples (so peaks land at 0, 3000, 6000 under the stride-1000 scan). -/
def renderedCE : ℕ → ℚ :=
  fun i => if i % 3000 = 0 then 1 else 0

/-- All-zero rendered data (silence). -/
def zeroData : ℕ → ℚ := fun _ => 0

/-! ### `analyzeKeyReal` (audioUtils.ts 226-266)

The first 2 seconds (at most) of the buffer are rendered through a 1000 Hz
lowpass filter (browser primitive); the autocorrelation search runs over the
rendered data, again passed as a parameter. -/

/-- `for (i = 0; i < data.length - offset; i += 20) corr += data[i] * data[i + offset]`. -/
def corrAt (data : ℕ → ℚ) (len off : ℕ) : ℚ :=
  (List.range' 0 ((len - off + 19) / 20) 20).foldl
    (fun corr i => corr + data i * data (i + off)) 0

/-- The lag search `for (offset = ⌊sr/1000⌋; offset < ⌊sr/40⌋; offset++)`
with `maxCorr = 0`, `bestOffset = -1`, updating on `corr > maxCorr`. -/
def bestOffsetSearch (data : ℕ → ℚ) (len sr : ℕ) : ℤ × ℚ :=
  (List.range' (sr / 1000) (sr / 40 - sr / 1000) 1).foldl
    (fun acc off =>
      if acc.2 < corrAt data len off then ((off : ℤ), corrAt data len off) else acc)
    (-1, 0)

/-- `const NOTES = ["C", "C#", ..., "B"]` — the twelve chromatic note names
in order from C (assembled here in three groups of four). -/
def NOTES : List String :=
  ["C", "C#", "D", "D#"] ++ ["E", "F", "F#", "G"] ++ ["G#", "A", "A#", "B"]

/-- The frequency-to-note conversion of `analyzeKeyReal`:
`noteNum = 12 * (Math.log(freq / 440) / Math.log(2))`,
`midi = Math.round(noteNum) + 69`, `noteIndex = midi % 12` (JS `%` truncates
toward zero, i.e. `Int.tmod`), and `NOTES[noteIndex] || "Unknown"` (a
negative or out-of-range index reads `undefined` and yields `"Unknown"`). -/
noncomputable def noteNameOfFreq (freq : ℝ) : String :=
  let noteNum := 12 * (Real.log (freq / 440) / Real.log 2)
  let midi := round noteNum + 69
  let noteIndex := Int.tmod midi 12
  if 0 ≤ noteIndex then NOTES.getD noteIndex.toNat "Unknown" else "Unknown"

/-- `analyzeKeyReal` on a buffer with the given `length` and `sampleRate`;
`data` is the externally rendered (1000 Hz lowpassed) signal, produced in an
`OfflineAudioContext` of `analysisLength = min(length, sampleRate * 2)`
frames.  Returns `"Unknown"` when no lag has positive autocorrelation. -/
noncomputable def analyzeKeyReal (length sr : ℕ) (data : ℕ → ℚ) : String :=
  let analysisLength := min length (sr * 2)
  let best := (bestOffsetSearch data analysisLength sr).1
  if best = -1 then "Unknown"
  else noteNameOfFreq ((sr : ℝ) / (best : ℝ))

/-! ### `calculateAudioStats` (audioUtils.ts 55-124), real-valued -/

/-- Model of a decoded audio buffer with real sample values, for the
analysis functions that feed `Math.log10` / `Math.sqrt`. -/
structure RAudioBuffer where
  numberOfChannels : ℕ
  sampleRate : ℕ
  length : ℕ
  channel : ℕ → ℕ → ℝ

/-- `buffer.duration = length / sampleRate`. -/
noncomputable def bufDuration (b : RAudioBuffer) : ℝ :=
  (b.length : ℝ) / (b.sampleRate : ℝ)

/-- `left = buffer.getChannelData(0)`. -/
def statsLeft (b : RAudioBuffer) : ℕ → ℝ := b.channel 0

/-- `right = buffer.numberOfChannels > 1 ? buffer.getChannelData(1) : left`. -/
def statsRight (b : RAudioBuffer) : ℕ → ℝ :=
  if 1 < b.numberOfChannels then b.channel 1 else b.channel 0

/-- `mid = (sL + sR) / 2`. -/
noncomputable def statsMid (b : RAudioBuffer) (i : ℕ) : ℝ :=
  (statsLeft b i + statsRight b i) / 2

/-- `sampleSize = Math.floor(min(duration, 15) * sampleRate)`. -/
noncomputable def statsSampleSize (b : RAudioBuffer) : ℕ :=
  ⌊min (bufDuration b) 15 * (b.sampleRate : ℝ)⌋₊

/-- `actualStart = Math.max(0, Math.floor(length / 2 - sampleSize / 2))`. -/
noncomputable def statsStart (b : RAudioBuffer) : ℕ :=
  (⌊(b.length : ℝ) / 2 - (statsSampleSize b : ℝ) / 2⌋).toNat

/-- The loop bound `Math.min(actualStart + sampleSize, buffer.length)`. -/
noncomputable def statsStop (b : RAudioBuffer) : ℕ :=
  min (statsStart b + statsSampleSize b) b.length

/-- Number of analysed samples. -/
noncomputable def statsCnt (b : RAudioBuffer) : ℕ :=
  statsStop b - statsStart b

/-- `sumSquares += mid * mid` over the analysis window. -/
noncomputable def statsSumSquares (b : RAudioBuffer) : ℝ :=
  ∑ j ∈ Finset.range (statsCnt b),
    statsMid b (statsStart b + j) * statsMid b (statsStart b + j)

/-- `stereoSum += sL * sR` over the analysis window. -/
noncomputable def statsStereoSum (b : RAudioBuffer) : ℝ :=
  ∑ j ∈ Finset.range (statsCnt b),
    statsLeft b (statsStart b + j) * statsRight b (statsStart b + j)

/-- `if (absMid > peak) peak = absMid` over the analysis window. -/
noncomputable def statsPeakLin (b : RAudioBuffer) : ℝ :=
  ((List.range (statsCnt b)).map fun j => |statsMid b (statsStart b + j)|).foldl max 0

/-- `highSum += diff * diff` for `i > actualStart`, where
`diff = |mid - left[i-1]|`. -/
noncomputable def statsHighSum (b : RAudioBuffer) : ℝ :=
  ∑ j ∈ Finset.Ico 1 (statsCnt b),
    |statsMid b (statsStart b + j) - statsLeft b (statsStart b + j - 1)| *
    |statsMid b (statsStart b + j) - statsLeft b (statsStart b + j - 1)|

/-- `lowSum += smooth * smooth` for `i > actualStart`, where
`smooth = (mid + left[i-1]) / 2`. -/
noncomputable def statsLowSum (b : RAudioBuffer) : ℝ :=
  ∑ j ∈ Finset.Ico 1 (statsCnt b),
    ((statsMid b (statsStart b + j) + statsLeft b (statsStart b + j - 1)) / 2) *
    ((statsMid b (statsStart b + j) + statsLeft b (statsStart b + j - 1)) / 2)

open Classical in
/-- `subSum += |mid| > 0.1 ? 1 : 0` on every 10th index with `i > actualStart`. -/
noncomputable def statsSubSum (b : RAudioBuffer) : ℝ :=
  ∑ j ∈ Finset.Ico 1 (statsCnt b),
    if (statsStart b + j) % 10 = 0 then
      (if 0.1 < |statsMid b (statsStart b + j)| then 1 else 0) else 0

open Classical in
/-- JS `x || d`: the fallback `d` replaces a zero value. -/
noncomputable def jsOr (x d : ℝ) : ℝ :=
  if x = 0 then d else x

/-- The `AudioStats` record of `types.ts`. -/
structure AudioStats where
  duration : ℝ
  sampleRate : ℕ
  numberOfChannels : ℕ
  rms : ℝ
  peak : ℝ
  crestFactor : ℝ
  lowEnergy : ℝ
  midEnergy : ℝ
  highEnergy : ℝ
  subBassEnergy : ℝ
  stereoCorrelation : ℝ

/-- `calculateAudioStats` (audioUtils.ts 55-124). -/
noncomputable def calculateAudioStats (b : RAudioBuffer) : AudioStats :=
  let rms := Real.sqrt (statsSumSquares b / (max 1 (statsSampleSize b) : ℕ))
  let rmsDb := 20 * Real.logb 10 (jsOr rms 0.000001)
  let peakDb := 20 * Real.logb 10 (jsOr (statsPeakLin b) 0.000001)
  let correlation := statsStereoSum b / jsOr (statsSumSquares b) 1
  let totalSpec := statsLowSum b + statsHighSum b
  { duration := bufDuration b
    sampleRate := b.sampleRate
    numberOfChannels := b.numberOfChannels
    rms := rmsDb
    peak := peakDb
    crestFactor := peakDb - rmsDb
    lowEnergy := statsLowSum b / jsOr totalSpec 1
    midEnergy := 0.5
    highEnergy := statsHighSum b / jsOr totalSpec 1
    subBassEnergy := statsSubSum b / ((max 1 (statsSampleSize b) : ℕ) / 10)
    stereoCorrelation := max (-1) (min 1 correlation) }

/-! ### `calculateProductionScore` (audioUtils.ts 126-138) -/

open Classical in
/-- `if (stats.peak > -0.1) score -= 30` (clipping risk). -/
noncomputable def clippingPenalty (s : AudioStats) : ℤ :=
  if -0.1 < s.peak then 30 else 0

open Classical in
/-- `if (stats.crestFactor < 4) score -= 20` (too crushed). -/
noncomputable def crushedPenalty (s : AudioStats) : ℤ :=
  if s.crestFactor < 4 then 20 else 0

open Classical in
/-- `if (stats.crestFactor > 15) score -= 15` (too dynamic). -/
noncomputable def dynamicPenalty (s : AudioStats) : ℤ :=
  if 15 < s.crestFactor then 15 else 0

open Classical in
/-- `if (stats.stereoCorrelation < 0) score -= 40` (phase cancellation). -/
noncomputable def phasePenalty (s : AudioStats) : ℤ :=
  if s.stereoCorrelation < 0 then 40 else 0

open Classical in
/-- `if (stats.stereoCorrelation > 0.95) score -= 10` (too mono). -/
noncomputable def monoPenalty (s : AudioStats) : ℤ :=
  if 0.95 < s.stereoCorrelation then 10 else 0

/-- `calculateProductionScore`: start from 100, subtract the five penalties
(as JS number arithmetic, here over ℝ), then
`Math.max(0, Math.min(100, Math.floor(score)))`. -/
noncomputable def calculateProductionScore (s : AudioStats) : ℤ :=
  let score : ℝ := 100 - (clippingPenalty s : ℝ) - (crushedPenalty s : ℝ)
    - (dynamicPenalty s : ℝ) - (phasePenalty s : ℝ) - (monoPenalty s : ℝ)
  max 0 (min 100 ⌊score⌋)

/-- The claim's integer form of the score: 100 minus the sum of the fixed
penalties, clamped to [0, 100]. -/
noncomputable def productionScoreSpec (s : AudioStats) : ℤ :=
  max 0 (min 100 (100 - clippingPenalty s - crushedPenalty s
    - dynamicPenalty s - phasePenalty s - monoPenalty s))

/-- The stats record of the claimed score scenario:
`{peak: -0.05, crestFactor: 3, stereoCorrelation: -0.2}`. -/
noncomputable def c3Stats : AudioStats :=
  { duration := 0, sampleRate := 0, numberOfChannels := 0, rms := 0
    peak := -0.05, crestFactor := 3, lowEnergy := 0, midEnergy := 0
    highEnergy := 0, subBassEnergy := 0, stereoCorrelation := -0.2 }

/-- A concrete mono buffer for the C10 witness: 1 channel, 2 frames,
sample 1 at frame 0. -/
noncomputable def c10Buffer : RAudioBuffer :=
  { numberOfChannels := 1
    sampleRate := 1
    length := 2
    channel := fun _ i => if i = 0 then 1 else 0 }

/-! ### `makeDistortionCurve` (audioUtils.ts 140-150) -/

/-- `makeDistortionCurve(amount)`: 44100 entries,
`curve[i] = (2 / Math.PI) * Math.atan(x * drive)` with
`x = (i * 2) / 44100 - 1` and `drive = 1 + amount / 10`. -/
noncomputable def makeDistortionCurve (amount : ℝ) : List ℝ :=
  (List.range 44100).map fun (i : ℕ) =>
    (2 / Real.pi) * Real.arctan (((i : ℝ) * 2 / 44100 - 1) * (1 + amount / 10))

/-! ### Live metering (`updateTime`, App 367-403) -/

/-- `sumSquares += sample * sample` over the analyser's time-domain buffer. -/
noncomputable def meterSumSquares (data : List ℝ) : ℝ :=
  data.foldl (fun acc s => acc + s * s) 0

open Classical in
/-- `if (Math.abs(sample) > peak) peak = Math.abs(sample)`. -/
noncomputable def meterPeak (data : List ℝ) : ℝ :=
  data.foldl (fun p s => if p < |s| then |s| else p) 0

/-- One meter update: computes `dbRMS`/`dbPeak` (with the `|| 0.000001`
silence guard), applies the one-pole RMS smoothing (`alpha = 0.3`) and the
asymmetric peak ballistic, and returns the new smoothing state paired with
the published (floored at -100) reading. -/
noncomputable def meterStep (data : List ℝ) (prev : ℝ × ℝ) : (ℝ × ℝ) × (ℝ × ℝ) :=
  let dbRMS := 20 * Real.logb 10
    (jsOr (Real.sqrt (meterSumSquares data / (data.length : ℝ))) 0.000001)
  let dbPeak := 20 * Real.logb 10 (jsOr (meterPeak data) 0.000001)
  let alpha : ℝ := 0.3
  let newRms := alpha * dbRMS + (1 - alpha) * prev.1
  let newPeak := max dbPeak (0.1 * dbPeak + 0.9 * prev.2)
  ((newRms, newPeak), (max (-100) newRms, max (-100) newPeak))

/-! ### `MasteringSettings` plumbing (types.ts, App 51-62 / 96-126 / 455-457,
geminiService function-call path App 496-501) -/

/-- The `MasteringSettings` record of `types.ts`. -/
structure MasteringSettings where
  inputGain : ℝ
  limiterCeiling : ℝ
  saturation : ℝ
  stereoWidth : ℝ
  eqLow : ℝ
  eqMid : ℝ
  eqHigh : ℝ
  mbLowThreshold : ℝ
  mbMidThreshold : ℝ
  mbHighThreshold : ℝ

/-- `keyof MasteringSettings`. -/
inductive SettingKey
  | inputGain | limiterCeiling | saturation | stereoWidth
  | eqLow | eqMid | eqHigh
  | mbLowThreshold | mbMidThreshold | mbHighThreshold

/-- `updateSetting(key, value)`: `setSettings(prev => ({...prev, [key]: value}))` —
the raw value is stored, with no transformation. -/
def updateSetting (s : MasteringSettings) (k : SettingKey) (v : ℝ) : MasteringSettings :=
  match k with
  | .inputGain => { s with inputGain := v }
  | .limiterCeiling => { s with limiterCeiling := v }
  | .saturation => { s with saturation := v }
  | .stereoWidth => { s with stereoWidth := v }
  | .eqLow => { s with eqLow := v }
  | .eqMid => { s with eqMid := v }
  | .eqHigh => { s with eqHigh := v }
  | .mbLowThreshold => { s with mbLowThreshold := v }
  | .mbMidThreshold => { s with mbMidThreshold := v }
  | .mbHighThreshold => { s with mbHighThreshold := v }

/-- A partial settings record, as produced by the assistant's
`update_mastering_settings` function-call arguments. -/
structure SettingsPatch where
  inputGain : Option ℝ := none
  limiterCeiling : Option ℝ := none
  saturation : Option ℝ := none
  stereoWidth : Option ℝ := none
  eqLow : Option ℝ := none
  eqMid : Option ℝ := none
  eqHigh : Option ℝ := none
  mbLowThreshold : Option ℝ := none
  mbMidThreshold : Option ℝ := none
  mbHighThreshold : Option ℝ := none

/-- The assistant path `setSettings(prev => ({...prev, ...args}))`: present
fields override, raw and untransformed. -/
def applySettingsPatch (s : MasteringSettings) (p : SettingsPatch) : MasteringSettings :=
  { inputGain := p.inputGain.getD s.inputGain
    limiterCeiling := p.limiterCeiling.getD s.limiterCeiling
    saturation := p.saturation.getD s.saturation
    stereoWidth := p.stereoWidth.getD s.stereoWidth
    eqLow := p.eqLow.getD s.eqLow
    eqMid := p.eqMid.getD s.eqMid
    eqHigh := p.eqHigh.getD s.eqHigh
    mbLowThreshold := p.mbLowThreshold.getD s.mbLowThreshold
    mbMidThreshold := p.mbMidThreshold.getD s.mbMidThreshold
    mbHighThreshold := p.mbHighThreshold.getD s.mbHighThreshold }

/-- The initial settings state (App 51-62). -/
noncomputable def defaultMasteringSettings : MasteringSettings :=
  { inputGain := 0, limiterCeiling := -0.1, saturation := 5, stereoWidth := 100
    eqLow := 0, eqMid := 0, eqHigh := 0
    mbLowThreshold := -16, mbMidThreshold := -16, mbHighThreshold := -16 }

/-- The parameter targets the settings `useEffect` (App 96-126) pushes into
the live graph nodes via `setTargetAtTime` (and the waveshaper curve,
replaced atomically). -/
structure GraphTargets where
  inputGainTarget : ℝ
  eqLowTarget : ℝ
  eqMidTarget : ℝ
  eqHighTarget : ℝ
  saturationCurve : List ℝ
  sideGainTarget : ℝ
  mbLowThresholdTarget : ℝ
  mbMidThresholdTarget : ℝ
  mbHighThresholdTarget : ℝ
  limiterThresholdTarget : ℝ

/-- The values actually applied to the graph by the settings `useEffect`:
`10^(inputGain/20)` for the gain node, the raw EQ gains and thresholds,
`stereoWidth / 100` for the side gain, `makeDistortionCurve(saturation)`
for the waveshaper.  No field is clamped anywhere on this path. -/
noncomputable def applySettingsToGraph (s : MasteringSettings) : GraphTargets :=
  { inputGainTarget := (10 : ℝ) ^ (s.inputGain / 20)
    eqLowTarget := s.eqLow
    eqMidTarget := s.eqMid
    eqHighTarget := s.eqHigh
    saturationCurve := makeDistortionCurve s.saturation
    sideGainTarget := s.stereoWidth / 100
    mbLowThresholdTarget := s.mbLowThreshold
    mbMidThresholdTarget := s.mbMidThreshold
    mbHighThresholdTarget := s.mbHighThreshold
    limiterThresholdTarget := s.limiterCeiling }

/-! ## Theorems -/

/-- Claim C1 (code bug evaluation): the spec says the 44-byte header is
followed by frames 0 .. len-1 encoded in order, but the code's sample loop
starts at frame index 44.  For `c1Buffer` with `len = 45` the blob has the
claimed size (134 bytes) and frame 0 encodes to 32767 (little-endian bytes
255, 127), yet the first data bytes (44, 45) hold 0 and 128 — the encoding
of frame 44's sample (-32768) — and the final data bytes (132, 133), where
the claim puts frame 44, are left zero. -/
theorem bufferToWave_drops_first_frames :
    (bufferToWave c1Buffer 45).length = 134 ∧
    encodeSample (c1Buffer.channel 0 0) = 32767 ∧
    encodeSample (c1Buffer.channel 0 44) = -32768 ∧
    (bufferToWave c1Buffer 45)[44]? = some 0 ∧
    (bufferToWave c1Buffer 45)[45]? = some 128 ∧
    (bufferToWave c1Buffer 45)[132]? = some 0 ∧
    (bufferToWave c1Buffer 45)[133]? = some 0 := by
  set_option maxRecDepth 10000 in decide

/-- Claim C2 (counterexample): out-of-range settings values are not clamped
before entering the graph.  Setting `eqLow` to 50 dB through `updateSetting`
makes the value applied to the low-shelf gain parameter exactly 50, which is
outside the documented [-12, 12] range. -/
theorem updateSetting_eqLow_unclamped_counterexample :
    (applySettingsToGraph (updateSetting defaultMasteringSettings SettingKey.eqLow 50)).eqLowTarget
      = 50 ∧
    ¬((-12 : ℝ) ≤ 50 ∧ (50 : ℝ) ≤ 12) := by
  constructor
  · rfl
  · intro h
    have := h.2
    norm_num at this

/-- Claim C2 (amended): the settings surface performs no clamping at all —
every value stored by `updateSetting` (or merged from an assistant
function-call patch) is applied to the corresponding graph parameter exactly
as given (the stereo width scaled by 1/100, as the code does), for
out-of-range values just as for in-range ones. -/
theorem settings_apply_unclamped :
    ∀ (s : MasteringSettings) (v : ℝ),
    (applySettingsToGraph (updateSetting s SettingKey.eqLow v)).eqLowTarget = v ∧
    (applySettingsToGraph (updateSetting s SettingKey.eqMid v)).eqMidTarget = v ∧
    (applySettingsToGraph (updateSetting s SettingKey.eqHigh v)).eqHighTarget = v ∧
    (applySettingsToGraph (updateSetting s SettingKey.limiterCeiling v)).limiterThresholdTarget
      = v ∧
    (applySettingsToGraph (updateSetting s SettingKey.mbLowThreshold v)).mbLowThresholdTarget
      = v ∧
    (applySettingsToGraph (updateSetting s SettingKey.mbMidThreshold v)).mbMidThresholdTarget
      = v ∧
    (applySettingsToGraph (updateSetting s SettingKey.mbHighThreshold v)).mbHighThresholdTarget
      = v ∧
    (applySettingsToGraph (updateSetting s SettingKey.stereoWidth v)).sideGainTarget = v / 100 ∧
    (applySettingsToGraph (applySettingsPatch s { eqLow := some v })).eqLowTarget = v ∧
    (applySettingsToGraph (applySettingsPatch s { stereoWidth := some v })).sideGainTarget
      = v / 100 := by
  intro s v
  refine ⟨rfl, rfl, rfl, rfl, rfl, rfl, rfl, rfl, rfl, rfl⟩

/-- Claim C3: `calculateProductionScore` equals 100 minus the sum of the
five fixed penalties, clamped to [0, 100] (the `Math.floor` is the identity
on this integer-valued score); and the scenario stats with peak -0.05,
crest factor 3 and stereo correlation -0.2 score exactly
100 - 30 - 20 - 40 = 10. -/
theorem calculateProductionScore_spec :
    (∀ s : AudioStats, calculateProductionScore s = productionScoreSpec s) ∧
    (∀ s : AudioStats, 0 ≤ calculateProductionScore s ∧ calculateProductionScore s ≤ 100) ∧
    (∀ s : AudioStats, s.peak = -0.05 → s.crestFactor = 3 → s.stereoCorrelation = -0.2 →
      calculateProductionScore s = 10) := by
  have key : ∀ s : AudioStats, calculateProductionScore s = productionScoreSpec s := by
    intro s
    unfold calculateProductionScore productionScoreSpec
    have hcast : (100 : ℝ) - (clippingPenalty s : ℝ) - (crushedPenalty s : ℝ)
        - (dynamicPenalty s : ℝ) - (phasePenalty s : ℝ) - (monoPenalty s : ℝ)
        = ((100 - clippingPenalty s - crushedPenalty s - dynamicPenalty s
            - phasePenalty s - monoPenalty s : ℤ) : ℝ) := by
      push_cast
      ring
    rw [hcast]
    simp only [Int.floor_intCast]
  have hrange : ∀ s : AudioStats,
      0 ≤ calculateProductionScore s ∧ calculateProductionScore s ≤ 100 := by
    intro s
    rw [key, productionScoreSpec]
    exact ⟨le_max_left _ _, max_le (by norm_num) (min_le_left _ _)⟩
  refine ⟨key, hrange, fun s h1 h2 h3 => ?_⟩
  rw [key]
  have hc1 : clippingPenalty s = 30 := by
    rw [clippingPenalty, if_pos (by rw [h1]; norm_num)]
  have hc2 : crushedPenalty s = 20 := by
    rw [crushedPenalty, if_pos (by rw [h2]; norm_num)]
  have hc3 : dynamicPenalty s = 0 := by
    rw [dynamicPenalty, if_neg (by rw [h2]; norm_num)]
  have hc4 : phasePenalty s = 40 := by
    rw [phasePenalty, if_pos (by rw [h3]; norm_num)]
  have hc5 : monoPenalty s = 0 := by
    rw [monoPenalty, if_neg (by rw [h3]; norm_num)]
  rw [productionScoreSpec, hc1, hc2, hc3, hc4, hc5]
  norm_num

/-- Claim C3 (witness): the scenario applied at the concrete stats record. -/
theorem calculateProductionScore_spec_witness :
    c3Stats.peak = -0.05 ∧ c3Stats.crestFactor = 3 ∧ c3Stats.stereoCorrelation = -0.2 ∧
    calculateProductionScore c3Stats = 10 :=
  ⟨rfl, rfl, rfl, calculateProductionScore_spec.2.2 c3Stats rfl rfl rfl⟩

/-- Claim C9: for every drive amount `k` in [0, 100], the distortion curve
has exactly 44100 entries, entry `i` is
`(2/π) · atan((2i/44100 - 1) · (1 + k/10))`, and the table is monotonically
non-decreasing in the index. -/
theorem makeDistortionCurve_monotone_table :
    ∀ k : ℝ, 0 ≤ k → k ≤ 100 →
    (makeDistortionCurve k).length = 44100 ∧
    (∀ i : ℕ, i < 44100 → (makeDistortionCurve k).getD i 0 =
      (2 / Real.pi) * Real.arctan (((i : ℝ) * 2 / 44100 - 1) * (1 + k / 10))) ∧
    (∀ i j : ℕ, i ≤ j → j < 44100 →
      (makeDistortionCurve k).getD i 0 ≤ (makeDistortionCurve k).getD j 0) := by
  intro k hk0 hk100
  have hget : ∀ i : ℕ, i < 44100 → (makeDistortionCurve k).getD i 0 =
      (2 / Real.pi) * Real.arctan (((i : ℝ) * 2 / 44100 - 1) * (1 + k / 10)) := by
    intro i hi
    unfold makeDistortionCurve
    rw [List.getD_eq_getElem?_getD, List.getElem?_map, List.getElem?_range hi]
    rfl
  refine ⟨by rw [makeDistortionCurve, List.length_map, List.length_range], hget,
    fun i j hij hj => ?_⟩
  rw [hget i (lt_of_le_of_lt hij hj), hget j hj]
  have hdrive : (0 : ℝ) ≤ 1 + k / 10 := by linarith
  have harg : ((i : ℝ) * 2 / 44100 - 1) * (1 + k / 10)
      ≤ ((j : ℝ) * 2 / 44100 - 1) * (1 + k / 10) := by
    apply mul_le_mul_of_nonneg_right _ hdrive
    have : (i : ℝ) ≤ (j : ℝ) := Nat.cast_le.mpr hij
    nlinarith [this]
  have hpi : (0 : ℝ) ≤ 2 / Real.pi := by positivity
  exact mul_le_mul_of_nonneg_left (Real.arctan_strictMono.monotone harg) hpi

/-- Claim C9 (witness): the theorem applied at drive 50, indices 3 ≤ 5. -/
theorem makeDistortionCurve_monotone_table_witness :
    (0 : ℝ) ≤ 50 ∧ (50 : ℝ) ≤ 100 ∧
    (makeDistortionCurve 50).getD 3 0 ≤ (makeDistortionCurve 50).getD 5 0 :=
  ⟨by norm_num, by norm_num,
    (makeDistortionCurve_monotone_table 50 (by norm_num) (by norm_num)).2.2 3 5
      (by norm_num) (by norm_num)⟩

/-- Helper: summing squares of an all-zero buffer gives 0. -/
theorem meterSumSquares_replicate_zero (n : ℕ) :
    meterSumSquares (List.replicate n 0) = 0 := by
  unfold meterSumSquares
  have aux : ∀ (m : ℕ) (a : ℝ),
      (List.replicate m (0 : ℝ)).foldl (fun acc s => acc + s * s) a = a := by
    intro m
    induction m with
    | zero => intro a; rfl
    | succ k ih =>
      intro a
      rw [List.replicate_succ, List.foldl_cons]
      rw [show a + 0 * 0 = a by ring]
      exact ih a
  exact aux n 0

/-- Helper: the peak scan of an all-zero buffer gives 0. -/
theorem meterPeak_replicate_zero (n : ℕ) :
    meterPeak (List.replicate n 0) = 0 := by
  unfold meterPeak
  induction n with
  | zero => rfl
  | succ k ih =>
    rw [List.replicate_succ, List.foldl_cons]
    rw [if_neg (by norm_num)]
    exact ih

/-- Helper: `20 * log10` of the `0.000001` silence guard is exactly -120. -/
theorem logb_silence_guard : Real.logb 10 0.000001 = -6 := by
  have h10 : Real.log 10 ≠ 0 := ne_of_gt (Real.log_pos (by norm_num))
  have he : (0.000001 : ℝ) = ((10 : ℝ) ^ (6 : ℕ))⁻¹ := by norm_num
  rw [Real.logb, he, Real.log_inv, Real.log_pow]
  field_simp

/-- Claim C8: every published meter reading is floored at -100 dB (both the
RMS and the peak components are `max (-100) ·` of the smoothed values), and
one update on an all-zero (silent) 2048-sample analyser buffer from the
reset state (-100, -100) publishes exactly (-100, -100) (the internal
smoothing state moves to (-106, -102)). -/
theorem meter_floor_neg100 :
    (∀ (data : List ℝ) (prev : ℝ × ℝ),
      (meterStep data prev).2.1 = max (-100) (meterStep data prev).1.1 ∧
      (meterStep data prev).2.2 = max (-100) (meterStep data prev).1.2 ∧
      -100 ≤ (meterStep data prev).2.1 ∧ -100 ≤ (meterStep data prev).2.2) ∧
    meterStep (List.replicate 2048 0) (-100, -100) = ((-106, -102), (-100, -100)) := by
  constructor
  · intro data prev
    exact ⟨rfl, rfl, le_max_left _ _, le_max_left _ _⟩
  · simp only [meterStep]
    rw [meterSumSquares_replicate_zero, meterPeak_replicate_zero, List.length_replicate]
    rw [show (0 : ℝ) / (2048 : ℕ) = 0 by norm_num, Real.sqrt_zero]
    rw [show jsOr (0 : ℝ) 0.000001 = 0.000001 from by rw [jsOr, if_pos rfl]]
    rw [logb_silence_guard]
    have hrms : (0.3 : ℝ) * (20 * (-6)) + (1 - 0.3) * (-100, -100).1 = -106 := by
      norm_num
    have hpeak : max ((20 : ℝ) * (-6)) (0.1 * (20 * (-6)) + 0.9 * (-100, -100).2) = -102 := by
      rw [show ((-100, -100) : ℝ × ℝ).2 = -100 from rfl]
      rw [show (0.1 : ℝ) * (20 * (-6)) + 0.9 * (-100) = -102 by norm_num]
      exact max_eq_right (by norm_num)
    rw [hrms, hpeak]
    rw [max_eq_left (by norm_num : (-106 : ℝ) ≤ -100),
      max_eq_left (by norm_num : (-102 : ℝ) ≤ -100)]

/-- Claim C5 (counterexample): for a 100-sample-per-second buffer of 10000
samples (100 s), the code's slice starts at the midpoint (sample 5000) and
ends at sample 8000, while a slice centered on the midpoint would run from
sample 3500 to 6500.  The processed window is not the one the claim
describes. -/
theorem bpmSlice_not_centered :
    bpmSliceStart 10000 100 = 5000 ∧ bpmSliceEnd 10000 100 = 8000 ∧
    specBpmSliceStart 10000 100 = 3500 ∧ specBpmSliceEnd 10000 100 = 6500 ∧
    bpmSliceStart 10000 100 ≠ specBpmSliceStart 10000 100 := by
  refine ⟨by decide, by decide, by decide, by decide, by decide⟩

/-- Claim C5 (amended): the samples `detectBPM` processes run from the
buffer midpoint to midpoint + 30 seconds (clamped to the buffer end): the
slice starts at sample `length / 2`, ends at
`min length (length / 2 + 30·sampleRate)`, and the copied slice holds the
original samples from the midpoint on. -/
theorem bpmSlice_starts_at_midpoint :
    ∀ length sr : ℕ, 0 < sr →
    bpmSliceStart length sr = length / 2 ∧
    bpmSliceEnd length sr = min length (length / 2 + 30 * sr) ∧
    ∀ (orig : ℕ → ℚ) (i : ℕ), i < bpmSliceLength length sr →
      (bpmSliceData length sr orig).getD i 0 = orig (length / 2 + i) := by
  intro length sr hsr
  have hsr' : ((sr : ℚ)) ≠ 0 := Nat.cast_ne_zero.mpr hsr.ne'
  have hstart : bpmSliceStart length sr = length / 2 := by
    unfold bpmSliceStart
    rw [show ((length : ℚ) / sr / 2) * sr = (length : ℚ) / ((2 : ℕ) : ℚ) by
      push_cast; field_simp; ring]
    rw [Nat.floor_div_nat, Nat.floor_natCast]
  refine ⟨hstart, by rw [bpmSliceEnd, hstart], ?_⟩
  intro orig i hi
  unfold bpmSliceData
  rw [List.getD_eq_getElem?_getD, List.getElem?_map, List.getElem?_range hi]
  rw [hstart]
  rfl

/-- Claim C5 (witness of the amended claim): evaluated on a 10000-sample,
100 Hz buffer whose samples are their own index. -/
theorem bpmSlice_starts_at_midpoint_witness :
    0 < 100 ∧ bpmSliceStart 10000 100 = 5000 ∧
    (bpmSliceData 10000 100 (fun i => (i : ℚ))).getD 7 0 = 5007 := by
  have h := bpmSlice_starts_at_midpoint 10000 100 (by norm_num)
  refine ⟨by norm_num, h.1, ?_⟩
  rw [h.2.2 (fun i => (i : ℚ)) 7 (by decide)]
  norm_num

/-- Helper: the lag-search fold never leaves the initial `(-1, 0)` state
when every candidate lag has non-positive autocorrelation. -/
theorem keySearchFoldl_const (data : ℕ → ℚ) (len : ℕ) :
    ∀ L : List ℕ, (∀ off ∈ L, corrAt data len off ≤ 0) →
    L.foldl (fun acc off =>
        if acc.2 < corrAt data len off then ((off : ℤ), corrAt data len off) else acc)
      ((-1 : ℤ), (0 : ℚ)) = (-1, 0) := by
  intro L
  induction L with
  | nil => intro _; rfl
  | cons a l ih =>
    intro h
    rw [List.foldl_cons]
    rw [if_neg (not_lt.mpr (h a (List.mem_cons_self a l)))]
    exact ih fun off hoff => h off (List.mem_cons_of_mem a hoff)

/-- Claim C6: the estimators fall back to their defaults — `detectBPM`
returns 128 when the analysis slice is empty, when no peaks are found, or
when the modal inter-peak interval is 0; `analyzeKeyReal` returns
`"Unknown"` when no lag in the searched range has positive autocorrelation
(the remaining failure mode in the source is the `try/catch` wrapper, whose
`catch` branches return the same defaults). -/
theorem estimator_fallback_defaults :
    (∀ (length sr : ℕ) (rendered : ℕ → ℚ), bpmSliceLength length sr = 0 →
      detectBPM length sr rendered = 128) ∧
    (∀ (length sr : ℕ) (rendered : ℕ → ℚ),
      detectPeaks rendered (bpmSliceLength length sr) = [] →
      detectBPM length sr rendered = 128) ∧
    (∀ (length sr : ℕ) (rendered : ℕ → ℚ),
      bestIntervalOf (intervalsOf (detectPeaks rendered (bpmSliceLength length sr))) = 0 →
      detectBPM length sr rendered = 128) ∧
    (∀ (length sr : ℕ) (data : ℕ → ℚ),
      (∀ off ∈ List.range' (sr / 1000) (sr / 40 - sr / 1000) 1,
        corrAt data (min length (sr * 2)) off ≤ 0) →
      analyzeKeyReal length sr data = "Unknown") := by
  have hmodal : ∀ (length sr : ℕ) (rendered : ℕ → ℚ),
      bestIntervalOf (intervalsOf (detectPeaks rendered (bpmSliceLength length sr))) = 0 →
      detectBPM length sr rendered = 128 := by
    intro length sr rendered h
    unfold detectBPM
    by_cases hsl : bpmSliceLength length sr = 0
    · rw [if_pos hsl]
    · rw [if_neg hsl]
      simp only [detectBPMRendered]
      rw [if_pos h]
  refine ⟨?_, ?_, hmodal, ?_⟩
  · intro length sr rendered h
    unfold detectBPM
    rw [if_pos h]
  · intro length sr rendered h
    apply hmodal
    rw [h]
    rfl
  · intro length sr data h
    simp only [analyzeKeyReal]
    rw [show bestOffsetSearch data (min length (sr * 2)) sr = (-1, 0) from
      keySearchFoldl_const data (min length (sr * 2)) _ h]
    rw [if_pos rfl]

/-- Claim C6 (witness): a zero-length buffer gives 128 BPM; a silent
2-second 100 Hz rendering gives key `"Unknown"`. -/
theorem estimator_fallback_defaults_witness :
    detectBPM 0 8000 zeroData = 128 ∧ analyzeKeyReal 100 100 zeroData = "Unknown" :=
  ⟨estimator_fallback_defaults.1 0 8000 zeroData (by decide),
    estimator_fallback_defaults.2.2.2 100 100 zeroData (by decide)⟩

/-- Claim C7: the key estimator's frequency-to-note conversion sends 440 Hz
to "A" and 880 Hz to "A", and for every fundamental in the detector's range
(at least 40 Hz; the search covers roughly 40-1000 Hz) doubling the
frequency leaves the note name unchanged. -/
theorem noteName_octave_invariant :
    noteNameOfFreq 440 = "A" ∧ noteNameOfFreq 880 = "A" ∧
    ∀ f : ℝ, 40 ≤ f → noteNameOfFreq (2 * f) = noteNameOfFreq f := by
  have hlog2 : Real.log 2 ≠ 0 := ne_of_gt (Real.log_pos (by norm_num))
  refine ⟨?_, ?_, ?_⟩
  · simp only [noteNameOfFreq]
    rw [show ((440 : ℝ) / 440) = 1 by norm_num, Real.log_one]
    rw [show (12 : ℝ) * (0 / Real.log 2) = 0 by ring]
    rw [round_zero]
    decide
  · simp only [noteNameOfFreq]
    rw [show ((880 : ℝ) / 440) = 2 by norm_num]
    rw [show (12 : ℝ) * (Real.log 2 / Real.log 2) = 12 by field_simp]
    rw [show (12 : ℝ) = ((12 : ℤ) : ℝ) by norm_num, round_intCast]
    decide
  · intro f hf
    have hfpos : 0 < f := lt_of_lt_of_le (by norm_num) hf
    have hfr : f / 440 ≠ 0 := div_ne_zero (ne_of_gt hfpos) (by norm_num)
    have hnote : (12 : ℝ) * (Real.log (2 * f / 440) / Real.log 2)
        = 12 * (Real.log (f / 440) / Real.log 2) + ((12 : ℤ) : ℝ) := by
      rw [show (2 * f / 440) = 2 * (f / 440) by ring, Real.log_mul (by norm_num) hfr]
      push_cast
      field_simp
      ring
    have hpos2 : 0 < Real.log 2 := Real.log_pos (by norm_num)
    -- lower bound on the note number, to keep `midi` non-negative
    have hlb : (-48 : ℝ) ≤ 12 * (Real.log (f / 440) / Real.log 2) := by
      have hdiv : (1 : ℝ) / 16 ≤ f / 440 := by
        rw [div_le_div_iff₀ (by norm_num) (by norm_num)]
        linarith
      have hlog : Real.log ((1 : ℝ) / 16) ≤ Real.log (f / 440) :=
        (Real.log_le_log_iff (by norm_num) (div_pos hfpos (by norm_num))).mpr hdiv
      have h16 : Real.log ((1 : ℝ) / 16) = -(4 * Real.log 2) := by
        rw [show ((1 : ℝ) / 16) = ((2 : ℝ) ^ (4 : ℕ))⁻¹ by norm_num, Real.log_inv,
          Real.log_pow]
        push_cast
        ring
      have hstep : -(4 * Real.log 2) / Real.log 2 ≤ Real.log (f / 440) / Real.log 2 :=
        (div_le_div_iff_of_pos_right hpos2).mpr (h16 ▸ hlog)
      have hm4 : -(4 * Real.log 2) / Real.log 2 = -4 := by field_simp
      rw [hm4] at hstep
      linarith
    have hround : (-49 : ℤ) ≤ round (12 * (Real.log (f / 440) / Real.log 2)) := by
      rw [round_eq, Int.le_floor]
      push_cast
      linarith
    simp only [noteNameOfFreq]
    rw [hnote, round_add_int]
    have htm : Int.tmod (round (12 * (Real.log (f / 440) / Real.log 2)) + 12 + 69) 12
        = Int.tmod (round (12 * (Real.log (f / 440) / Real.log 2)) + 69) 12 := by
      rw [Int.tmod_eq_emod (by omega) (by norm_num), Int.tmod_eq_emod (by omega) (by norm_num)]
      omega
    rw [htm]

/-- Claim C7 (witness): octave invariance applied at 440 Hz. -/
theorem noteName_octave_invariant_witness :
    (40 : ℝ) ≤ 440 ∧ noteNameOfFreq (2 * 440) = noteNameOfFreq 440 :=
  ⟨by norm_num, noteName_octave_invariant.2.2 440 (by norm_num)⟩

/-- Helper: the peak-scan fold preserves the "adjacent peaks are more than
2000 samples apart" chain invariant (the push guard checks exactly this
against the last pushed peak). -/
theorem peaksFoldl_chain (data : ℕ → ℚ) :
    ∀ (L : List ℕ) (acc : List ℕ), acc.Chain' (fun a b => a + 2000 < b) →
    (L.foldl (fun peaks i =>
        if 0.4 < data i ∧ peakGapOk peaks i = true then peaks ++ [i] else peaks) acc).Chain'
      (fun a b => a + 2000 < b) := by
  intro L
  induction L with
  | nil => intro acc h; exact h
  | cons a l ih =>
    intro acc h
    rw [List.foldl_cons]
    apply ih
    by_cases hc : 0.4 < data a ∧ peakGapOk acc a = true
    · rw [if_pos hc]
      rcases hc with ⟨-, hgap⟩
      rw [List.chain'_append]
      refine ⟨h, List.chain'_singleton a, ?_⟩
      intro x hx y hy
      simp only [List.head?_cons, Option.mem_def, Option.some.injEq] at hy
      subst hy
      unfold peakGapOk at hgap
      cases hl : acc.getLast? with
      | none => rw [hl] at hx; simp at hx
      | some l2 =>
        rw [hl] at hx hgap
        simp only [Option.mem_def, Option.some.injEq] at hx
        subst hx
        simpa using hgap
    · rw [if_neg hc]
      exact h

/-- Helper: every inter-peak interval of a chain with gaps above 2000 is
above 2000. -/
theorem intervalsOf_gt2000 :
    ∀ l : List ℕ, l.Chain' (fun a b => a + 2000 < b) →
    ∀ x ∈ intervalsOf l, (2000 : ℤ) < x := by
  intro l
  induction l with
  | nil => intro _ x hx; simp [intervalsOf] at hx
  | cons a t ih =>
    cases t with
    | nil => intro _ x hx; simp [intervalsOf] at hx
    | cons b r =>
      intro h x hx
      rw [List.chain'_cons] at h
      rw [show intervalsOf (a :: b :: r) = ((b : ℤ) - (a : ℤ)) :: intervalsOf (b :: r)
        from rfl] at hx
      rcases List.mem_cons.mp hx with hx | hx
      · subst hx
        have := h.1
        omega
      · exact ih h.2 x hx

/-- Helper: the modal-bucket fold returns 0 or one of the quantized
intervals. -/
theorem bestIntervalOf_eq_zero_or_mem (ints : List ℤ) :
    bestIntervalOf ints = 0 ∨ bestIntervalOf ints ∈ ints.map quantizeInterval := by
  unfold bestIntervalOf
  have hkeys : ∀ k ∈ (ints.map quantizeInterval).dedup.insertionSort (· ≤ ·),
      k ∈ ints.map quantizeInterval := by
    intro k hk
    exact List.mem_dedup.mp
      ((List.perm_insertionSort (· ≤ ·) ((ints.map quantizeInterval).dedup)).mem_iff.mp hk)
  have aux : ∀ (L : List ℤ) (acc : ℕ × ℤ),
      (∀ k ∈ L, k ∈ ints.map quantizeInterval) →
      (acc.2 = 0 ∨ acc.2 ∈ ints.map quantizeInterval) →
      ((L.foldl (fun acc k => if acc.1 < (ints.map quantizeInterval).count k
          then ((ints.map quantizeInterval).count k, k) else acc) acc).2 = 0 ∨
        (L.foldl (fun acc k => if acc.1 < (ints.map quantizeInterval).count k
          then ((ints.map quantizeInterval).count k, k) else acc) acc).2
          ∈ ints.map quantizeInterval) := by
    intro L
    induction L with
    | nil => intro acc _ hacc; exact hacc
    | cons a l ih =>
      intro acc hmem hacc
      rw [List.foldl_cons]
      apply ih
      · intro k hk; exact hmem k (List.mem_cons_of_mem a hk)
      · by_cases hc : acc.1 < (ints.map quantizeInterval).count a
        · rw [if_pos hc]
          exact Or.inr (hmem a (List.mem_cons_self a l))
        · rw [if_neg hc]
          exact hacc
  exact aux _ _ hkeys (Or.inl rfl)

/-- Helper: quantizing an interval above 2000 yields at least 2000. -/
theorem quantizeInterval_ge (n : ℤ) (hn : 2000 < n) : 2000 ≤ quantizeInterval n := by
  unfold quantizeInterval
  have h20 : (20 : ℤ) ≤ round ((n : ℚ) / 100) := by
    rw [round_eq, Int.le_floor]
    push_cast
    have hq : (2001 : ℚ) ≤ (n : ℚ) := by exact_mod_cast hn
    linarith
  linarith

/-- Helper: `while (bpm < 110) bpm *= 2` ends at or above 110 for positive
input. -/
theorem foldUp_ge (b : ℚ) (hb : 0 < b) : 110 ≤ foldUp b := by
  induction b using foldUp.induct with
  | case1 b h ih =>
    rw [foldUp, dif_pos h]
    exact ih (by positivity)
  | case2 b h =>
    rw [foldUp, dif_neg h]
    push_neg at h
    exact h hb

/-- Helper: `while (bpm > 155) bpm /= 2` ends at or below 155. -/
theorem foldDown_le (b : ℚ) : foldDown b ≤ 155 := by
  induction b using foldDown.induct with
  | case1 b h ih => rw [foldDown, dif_pos h]; exact ih
  | case2 b h => rw [foldDown, dif_neg h]; exact not_lt.mp h

/-- Helper: the halving loop never falls to 77.5 or below. -/
theorem foldDown_gt (b : ℚ) (hb : 155 / 2 < b) : 155 / 2 < foldDown b := by
  induction b using foldDown.induct with
  | case1 b h ih =>
    rw [foldDown, dif_pos h]
    exact ih (by linarith)
  | case2 b h => rw [foldDown, dif_neg h]; exact hb

/-- Claim C4 (counterexample): the fold does not always land in [110, 155].
With sample rate 8000 and impulses every 3000 samples the modal interval is
3000, the raw BPM is 480000/3000 = 160, the doubling loop does not run, the
halving loop drops it to 80, and `detectBPM` returns 80 — below 110. -/
theorem detectBPM_fold_escapes_range :
    bestIntervalOf (intervalsOf (detectPeaks renderedCE (bpmSliceLength 12002 8000))) = 3000 ∧
    detectBPM 12002 8000 renderedCE = 80 ∧
    ¬(110 ≤ detectBPM 12002 8000 renderedCE ∧ detectBPM 12002 8000 renderedCE ≤ 155) := by
  have hbest : bestIntervalOf (intervalsOf (detectPeaks renderedCE (bpmSliceLength 12002 8000)))
      = 3000 := by decide
  have hval : detectBPM 12002 8000 renderedCE = 80 := by
    unfold detectBPM
    rw [if_neg (by decide)]
    simp only [detectBPMRendered]
    rw [hbest]
    rw [if_neg (by decide)]
    rw [show (60 * ((8000 : ℕ) : ℚ)) / (((3000 : ℤ) : ℚ)) = 160 by norm_num]
    rw [foldUp, dif_neg (by norm_num)]
    rw [foldDown, dif_pos (by norm_num)]
    rw [show (160 : ℚ) / 2 = 80 by norm_num]
    rw [foldDown, dif_neg (by norm_num)]
    rw [round_eq]
    norm_num
  exact ⟨hbest, hval, by rw [hval]; norm_num⟩

/-- Claim C4 (amended): whenever a non-zero modal inter-peak interval is
found (and the sample rate is positive), the returned BPM lies in
[78, 155]: the doubling loop guarantees at least 110 before halving, but a
value just above 155 halves to just above 77.5, so results in [78, 109] can
occur; 155 remains a hard upper bound. -/
theorem detectBPM_fold_in_78_155 :
    ∀ (length sr : ℕ) (rendered : ℕ → ℚ), 0 < sr →
    bestIntervalOf (intervalsOf (detectPeaks rendered (bpmSliceLength length sr))) ≠ 0 →
    78 ≤ detectBPM length sr rendered ∧ detectBPM length sr rendered ≤ 155 := by
  intro length sr rendered hsr hbest
  have hbpos : (0 : ℚ) <
      (60 * (sr : ℚ)) /
        ((bestIntervalOf (intervalsOf (detectPeaks rendered (bpmSliceLength length sr))) : ℤ)
          : ℚ) := by
    rcases bestIntervalOf_eq_zero_or_mem
        (intervalsOf (detectPeaks rendered (bpmSliceLength length sr))) with h0 | hmem
    · exact absurd h0 hbest
    · rcases List.mem_map.mp hmem with ⟨n, hn, hqn⟩
      have hn2000 : (2000 : ℤ) < n :=
        intervalsOf_gt2000 _ (peaksFoldl_chain rendered _ [] List.chain'_nil) n hn
      have hge : (2000 : ℤ) ≤
          bestIntervalOf (intervalsOf (detectPeaks rendered (bpmSliceLength length sr))) := by
        rw [← hqn]
        exact quantizeInterval_ge n hn2000
      apply div_pos
      · have : (0 : ℚ) < (sr : ℚ) := by exact_mod_cast hsr
        linarith
      · have : (2000 : ℚ) ≤
            ((bestIntervalOf (intervalsOf (detectPeaks rendered (bpmSliceLength length sr)))
              : ℤ) : ℚ) := by exact_mod_cast hge
        linarith
  have hrange : ∀ y : ℚ, 155 / 2 < y → y ≤ 155 → 78 ≤ round y ∧ round y ≤ 155 := by
    intro y h1 h2
    constructor
    · rw [round_eq, Int.le_floor]
      push_cast
      linarith
    · rw [round_eq]
      have : ⌊y + 1 / 2⌋ < 156 := Int.floor_lt.mpr (by push_cast; linarith)
      omega
  have hup : 110 ≤ foldUp ((60 * (sr : ℚ)) /
      ((bestIntervalOf (intervalsOf (detectPeaks rendered (bpmSliceLength length sr))) : ℤ)
        : ℚ)) := foldUp_ge _ hbpos
  have hdn1 := foldDown_le (foldUp ((60 * (sr : ℚ)) /
      ((bestIntervalOf (intervalsOf (detectPeaks rendered (bpmSliceLength length sr))) : ℤ)
        : ℚ)))
  have hdn2 := foldDown_gt (foldUp ((60 * (sr : ℚ)) /
      ((bestIntervalOf (intervalsOf (detectPeaks rendered (bpmSliceLength length sr))) : ℤ)
        : ℚ))) (by linarith)
  have hfinal := hrange _ hdn2 hdn1
  unfold detectBPM
  by_cases hsl : bpmSliceLength length sr = 0
  · rw [if_pos hsl]
    constructor <;> norm_num
  · rw [if_neg hsl]
    simp only [detectBPMRendered]
    rw [if_neg hbest]
    exact hfinal

/-- Claim C4 (witness of the amended claim): the amended bound evaluated on
the impulse-train rendering (which produces BPM 80). -/
theorem detectBPM_fold_in_78_155_witness :
    0 < 8000 ∧
    bestIntervalOf (intervalsOf (detectPeaks renderedCE (bpmSliceLength 12002 8000))) ≠ 0 ∧
    78 ≤ detectBPM 12002 8000 renderedCE ∧ detectBPM 12002 8000 renderedCE ≤ 155 :=
  ⟨by norm_num, by decide,
    detectBPM_fold_in_78_155 12002 8000 renderedCE (by norm_num) (by decide)⟩

/-- Claim C10: for a mono buffer whose analysis window holds a non-zero
sample, `calculateAudioStats` reports stereo correlation exactly 1 (the
single channel serves as both left and right, so the correlation numerator
equals the `sumSquares` denominator), and such stats always incur the
10-point "too mono" penalty (`stereoCorrelation > 0.95`). -/
theorem mono_buffer_correlation_one :
    ∀ b : RAudioBuffer, b.numberOfChannels = 1 →
    (∃ j, j < statsCnt b ∧ b.channel 0 (statsStart b + j) ≠ 0) →
    (calculateAudioStats b).stereoCorrelation = 1 ∧
    monoPenalty (calculateAudioStats b) = 10 := by
  intro b hch hex
  have hright : statsRight b = b.channel 0 := by
    unfold statsRight
    rw [hch]
    simp
  have hmid : ∀ i, statsMid b i = b.channel 0 i := by
    intro i
    unfold statsMid statsLeft
    rw [hright]
    ring
  have hsum_eq : statsStereoSum b = statsSumSquares b := by
    unfold statsStereoSum statsSumSquares
    refine Finset.sum_congr rfl fun j _ => ?_
    rw [hmid]
    unfold statsLeft
    rw [hright]
  have hpos : 0 < statsSumSquares b := by
    obtain ⟨j, hj, hnz⟩ := hex
    unfold statsSumSquares
    apply Finset.sum_pos'
    · intro i _
      rw [hmid]
      exact mul_self_nonneg _
    · refine ⟨j, Finset.mem_range.mpr hj, ?_⟩
      rw [hmid]
      exact mul_self_pos.mpr hnz
  have hcorr : (calculateAudioStats b).stereoCorrelation = 1 := by
    simp only [calculateAudioStats]
    rw [hsum_eq, jsOr, if_neg (ne_of_gt hpos), div_self (ne_of_gt hpos)]
    norm_num
  refine ⟨hcorr, ?_⟩
  unfold monoPenalty
  rw [hcorr, if_pos (by norm_num)]

/-- Helper: the analysis window of the 2-sample witness buffer starts at 0
and has 2 samples. -/
theorem c10Buffer_window : statsStart c10Buffer = 0 ∧ statsCnt c10Buffer = 2 := by
  have hsize : statsSampleSize c10Buffer = 2 := by
    unfold statsSampleSize bufDuration c10Buffer
    norm_num
  have hstart : statsStart c10Buffer = 0 := by
    unfold statsStart
    rw [hsize]
    norm_num [c10Buffer]
  refine ⟨hstart, ?_⟩
  unfold statsCnt statsStop
  rw [hstart, hsize]
  rfl

/-- Claim C10 (witness): evaluated on the concrete mono buffer. -/
theorem mono_buffer_correlation_one_witness :
    c10Buffer.numberOfChannels = 1 ∧
    (∃ j, j < statsCnt c10Buffer ∧ c10Buffer.channel 0 (statsStart c10Buffer + j) ≠ 0) ∧
    (calculateAudioStats c10Buffer).stereoCorrelation = 1 ∧
    monoPenalty (calculateAudioStats c10Buffer) = 10 := by
  have hex : ∃ j, j < statsCnt c10Buffer ∧ c10Buffer.channel 0 (statsStart c10Buffer + j) ≠ 0 := by
    refine ⟨0, ?_, ?_⟩
    · rw [c10Buffer_window.2]
      norm_num
    · rw [c10Buffer_window.1]
      norm_num [c10Buffer]
  exact ⟨rfl, hex, mono_buffer_correlation_one c10Buffer rfl hex⟩
